import Mathlib

/-
Verification of the DCF valuation engine (src/dcf_code.py).

Shallow embedding conventions:
- Python floats are modelled as exact rationals.
- Python list access of the form (xs[-1] if xs else c) is modelled as
  xs.getLast?.getD c; bare xs[-1] is modelled the same way, and theorems about
  whole-snapshot runs carry a WellFormed hypothesis (all series of length 3,
  the data-model invariant of the spec), under which the two coincide.
- The engine's numeric work on historical series happens on numpy arrays and
  numpy scalars, whose division by zero does NOT raise (it yields inf or nan
  with a RuntimeWarning).  The pipeline is embedded over the rationals; the
  margin estimator additionally gets a faithful numpy-semantics twin over an
  extended value type XVal (finite, +inf, -inf, nan) used to settle the
  zero-revenue claim, which is exactly the point where rational and float
  semantics part ways.
- The human-readable calculation trace (calculation_log / _log) is elided:
  it is append-only and never feeds back into any computed quantity.
- Mutating methods are embedded as explicit state passing on DCFModel.
-/

/-- Extended value type with numpy float semantics for division by zero:
finite rationals plus positive infinity, negative infinity and nan. -/
inductive XVal where
  | fin (q : ℚ) : XVal
  | pinf : XVal
  | ninf : XVal
  | nan : XVal
deriving DecidableEq, Repr

/-- Numpy addition on extended values: nan is absorbing, inf + (-inf) = nan. -/
def npAdd : XVal → XVal → XVal
  | .nan, _ => .nan
  | _, .nan => .nan
  | .pinf, .ninf => .nan
  | .ninf, .pinf => .nan
  | .pinf, _ => .pinf
  | _, .pinf => .pinf
  | .ninf, _ => .ninf
  | _, .ninf => .ninf
  | .fin a, .fin b => .fin (a + b)

/-- Numpy elementwise division of two finite floats: a nonzero denominator
divides normally; a zero denominator yields +inf, -inf or nan according to the
sign of the numerator (no exception is raised). -/
def npDivQ (a b : ℚ) : XVal :=
  if b ≠ 0 then .fin (a / b)
  else if 0 < a then .pinf
  else if a < 0 then .ninf
  else .nan

/-- Numpy sum of a vector of extended values. -/
def npSum (l : List XVal) : XVal := l.foldl npAdd (.fin 0)

/-- Division of an extended value by a vector length (used by np.mean);
dividing a finite nonzero value by length 0 gives a signed infinity and
0/0 gives nan, matching numpy. -/
def npDivNat (x : XVal) (n : ℕ) : XVal :=
  match x with
  | .fin a =>
      if n = 0 then (if 0 < a then .pinf else if a < 0 then .ninf else .nan)
      else .fin (a / (n : ℚ))
  | .pinf => .pinf
  | .ninf => .ninf
  | .nan => .nan

/-- Numpy mean: sum divided by length (np.mean of an empty array is nan). -/
def npMean (l : List XVal) : XVal := npDivNat (npSum l) l.length

/-- Mean over exact rationals (sum divided by length), the rational
idealization of np.mean used by the main pipeline. -/
def meanQ (l : List ℚ) : ℚ := l.sum / (l.length : ℚ)

/-- Python pattern (xs[-1] if xs else 0): last element of the list, 0 when
the list is empty. -/
def lastD (l : List ℚ) : ℚ := l.getLast?.getD 0

/-- Python slice xs[-n:]: the last n elements of the list. -/
def lastN (l : List ℚ) (n : ℕ) : List ℚ := l.drop (l.length - n)

/-- DCFAssumptions dataclass: user-chosen growth inputs. -/
structure DCFAssumptions where
  revenue_growth_rates : List ℚ
  terminal_growth_rate : ℚ
  projection_years : ℕ := 5
deriving Repr

/-- FinancialData dataclass: three-year historical series (oldest to newest)
plus market scalars, all fetched from the API layer. -/
structure FinancialData where
  years : List String
  revenue : List ℚ
  ebit : List ℚ
  ebitda : List ℚ
  net_income : List ℚ
  effective_tax_rate : List ℚ
  interest_expense : List ℚ
  current_assets : List ℚ
  current_liabilities : List ℚ
  cash_and_equivalents : List ℚ
  short_term_debt : List ℚ
  long_term_debt : List ℚ
  total_debt : List ℚ
  total_assets : List ℚ
  total_liabilities : List ℚ
  property_plant_equipment_net : List ℚ
  preferred_equity : List ℚ
  d_and_a : List ℚ
  capex : List ℚ
  preferred_dividends : List ℚ
  shares_outstanding : ℚ
  beta : ℚ
  stock_price : ℚ
  market_cap : ℚ
  risk_free_rate : ℚ
  market_return_rate : ℚ
deriving Repr

/-- Derived net working capital per historical year:
(current assets - cash) - (current liabilities - short-term debt). -/
def FinancialData.nwc (d : FinancialData) : List ℚ :=
  (List.range d.current_assets.length).map (fun i =>
    (d.current_assets.getD i 0 - d.cash_and_equivalents.getD i 0) -
      (d.current_liabilities.getD i 0 - d.short_term_debt.getD i 0))

/-- Derived book value per historical year: total assets - total liabilities. -/
def FinancialData.book_value (d : FinancialData) : List ℚ :=
  List.zipWith (fun a l => a - l) d.total_assets d.total_liabilities

/-- Data-model invariant of the spec: every per-year series used by the
margin and forecast path has exactly 3 entries. -/
def WellFormed (d : FinancialData) : Prop :=
  d.revenue.length = 3 ∧ d.ebit.length = 3 ∧ d.d_and_a.length = 3 ∧
  d.capex.length = 3 ∧ d.current_assets.length = 3 ∧
  d.current_liabilities.length = 3 ∧ d.cash_and_equivalents.length = 3 ∧
  d.short_term_debt.length = 3

instance (d : FinancialData) : Decidable (WellFormed d) := by
  unfold WellFormed; infer_instance

/-- Averaged historical drivers returned by _calculate_historical_margins:
four average margins plus the most recent actual NWC balance. -/
structure Margins where
  avg_ebit_m : ℚ
  avg_da_m : ℚ
  avg_nwc_m : ℚ
  avg_capex_m : ℚ
  last_nwc : ℚ
deriving Repr

/-- Rational embedding of _calculate_historical_margins: per-year line item
divided by that year's revenue, averaged over the (at most) 3-year window;
the CapEx ratio uses the absolute value of capex. -/
def calculate_historical_margins (d : FinancialData) : Margins :=
  let rec_count := min d.revenue.length 3
  let rev := lastN d.revenue rec_count
  let ebit := lastN d.ebit rec_count
  let da := lastN d.d_and_a rec_count
  let nwc := lastN d.nwc rec_count
  let capex := lastN d.capex rec_count
  { avg_ebit_m := meanQ (List.zipWith (fun e r => e / r) ebit rev)
    avg_da_m := meanQ (List.zipWith (fun x r => x / r) da rev)
    avg_nwc_m := meanQ (List.zipWith (fun x r => x / r) nwc rev)
    avg_capex_m := meanQ (List.zipWith (fun c r => |c| / r) capex rev)
    last_nwc := lastD nwc }

/-- Numpy-semantics twin of _calculate_historical_margins, faithful to what
the source actually does on a zero-revenue year: the elementwise array
divisions produce inf/nan values and no exception, so the function's
ZeroDivisionError handler never fires and a 5-tuple of (possibly non-finite)
values is returned unconditionally. -/
def npCalculateHistoricalMargins (d : FinancialData) :
    XVal × XVal × XVal × XVal × XVal :=
  let rec_count := min d.revenue.length 3
  let rev := lastN d.revenue rec_count
  let ebit := lastN d.ebit rec_count
  let da := lastN d.d_and_a rec_count
  let nwc := lastN d.nwc rec_count
  let capex := lastN d.capex rec_count
  (npMean (List.zipWith npDivQ ebit rev),
   npMean (List.zipWith npDivQ da rev),
   npMean (List.zipWith npDivQ nwc rev),
   npMean (List.zipWith (fun c r => npDivQ |c| r) capex rev),
   XVal.fin (lastD nwc))

/-- Python pattern (effective_tax_rate[-1] if effective_tax_rate else 0.21). -/
def taxRate (d : FinancialData) : ℚ := d.effective_tax_rate.getLast?.getD (21/100)

/-- Total capitalization used for the WACC weights:
market_cap + total_debt + preferred_equity (latest year, 0 when absent). -/
def totalValueOf (d : FinancialData) : ℚ :=
  d.market_cap + lastD d.total_debt + lastD d.preferred_equity

/-- Capital-structure weights computed by calculate_wacc:
(equity weight, debt weight, preferred weight), each component of the latest
capital structure divided by the total capitalization. -/
def capitalWeights (d : FinancialData) : ℚ × ℚ × ℚ :=
  let total_value := totalValueOf d
  (d.market_cap / total_value,
   lastD d.total_debt / total_value,
   lastD d.preferred_equity / total_value)

/-- Blended WACC computed by calculate_wacc on the non-degenerate path
(total capitalization nonzero): CAPM cost of equity, after-tax cost of debt
(fallback pre-tax cost 0.05 when there is no debt), cost of preferred
(0 when there is no preferred equity), combined by the capital weights. -/
def waccBlend (d : FinancialData) : ℚ :=
  let cost_equity := d.risk_free_rate + d.beta * (d.market_return_rate - d.risk_free_rate)
  let total_debt := lastD d.total_debt
  let int_exp := |lastD d.interest_expense|
  let cost_of_debt := if total_debt > 0 then int_exp / total_debt else 5/100
  let tax_rate := taxRate d
  let cost_debt_at := cost_of_debt * (1 - tax_rate)
  let pref_equity := lastD d.preferred_equity
  let pref_divs := lastD d.preferred_dividends
  let cost_pref := if pref_equity > 0 then |pref_divs| / pref_equity else 0
  let w := capitalWeights d
  w.1 * cost_equity + w.2.1 * cost_debt_at + w.2.2 * cost_pref

/-- Value returned by calculate_wacc: the fixed fallback 0.10 when the total
capitalization is zero, the blended WACC otherwise. -/
def waccReturn (d : FinancialData) : ℚ :=
  if totalValueOf d = 0 then 1/10 else waccBlend d

/-- One projection row of the forecast, mirroring the row dict built by
forecast_cash_flows (keys Year, Revenue, EBIT, Taxes, D&A, CapEx, NWC,
Change NWC, UFCF). -/
structure ForecastRow where
  year : ℕ
  revenue : ℚ
  ebit : ℚ
  taxes : ℚ
  da : ℚ
  capex : ℚ
  nwc : ℚ
  change_nwc : ℚ
  ufcf : ℚ
deriving Repr, DecidableEq

/-- Default row used only as the out-of-range value of List.getD. -/
def row0 : ForecastRow := ⟨0, 0, 0, 0, 0, 0, 0, 0, 0⟩

/-- Engine state: the DCFModel object.  The constructor sets wacc := 0.0 and
projections := [] (the calculation_log is elided, see the header comment). -/
structure DCFModel where
  data : FinancialData
  assumptions : DCFAssumptions
  wacc : ℚ := 0
  projections : List ForecastRow := []

/-- Embedding of calculate_wacc.  On the zero-total-capitalization path the
source returns 0.10 early, BEFORE the assignment self.wacc = wacc, so the
stored base-case rate is left untouched on that path. -/
def calculate_wacc (m : DCFModel) : ℚ × DCFModel :=
  if totalValueOf m.data = 0 then (1/10, m)
  else (waccBlend m.data, { m with wacc := waccBlend m.data })

/-- Loop body of forecast_cash_flows: one row per growth rate, carrying the
running revenue and the previous NWC level between years; k is the number of
rows already produced (the enumerate index). -/
def forecastStep (ebit_m da_m nwc_m capex_m tax_rate : ℚ) :
    ℕ → ℚ → ℚ → List ℚ → List ForecastRow
  | _, _, _, [] => []
  | k, curr_rev, prev_nwc, g :: gs =>
    let rev' := curr_rev * (1 + g)
    let ebit := rev' * ebit_m
    let taxes := ebit * tax_rate
    let nopat := ebit - taxes
    let da := rev' * da_m
    let capex := rev' * capex_m
    let nwc_level := rev' * nwc_m
    let change_nwc := nwc_level - prev_nwc
    let ufcf := nopat + da - capex - change_nwc
    { year := k + 1, revenue := rev', ebit := ebit, taxes := taxes, da := da,
      capex := capex, nwc := nwc_level, change_nwc := change_nwc, ufcf := ufcf } ::
      forecastStep ebit_m da_m nwc_m capex_m tax_rate (k + 1) rev' nwc_level gs

/-- Pure value of the projection table produced by forecast_cash_flows:
base revenue is the snapshot's latest actual revenue, the NWC anchor is the
most recent historical NWC balance from the margin estimator. -/
def forecastRows (d : FinancialData) (a : DCFAssumptions) : List ForecastRow :=
  let M := calculate_historical_margins d
  forecastStep M.avg_ebit_m M.avg_da_m M.avg_nwc_m M.avg_capex_m (taxRate d)
    0 (lastD d.revenue) M.last_nwc a.revenue_growth_rates

/-- Embedding of forecast_cash_flows: computes the projection rows, stores
them on the engine (self.projections) and returns them. -/
def forecast_cash_flows (m : DCFModel) : List ForecastRow × DCFModel :=
  let projections := forecastRows m.data m.assumptions
  (projections, { m with projections := projections })

/-- Stage-1 present-value sum of compute_intrinsic_value: each flow at
enumerate index k is discounted by (1 + wacc) ^ (k + 1). -/
def pvSum (wacc : ℚ) : ℕ → List ℚ → ℚ
  | _, [] => 0
  | k, f :: fs => f / (1 + wacc) ^ (k + 1) + pvSum wacc (k + 1) fs

/-- Pure body of compute_intrinsic_value given the projection list in use:
stage-1 PV, the WACC <= g sentinel, Gordon-growth terminal value discounted
by the literal (1 + wacc) ^ 5, the 12-month roll-forward, the net-debt
bridge and the per-share division (sentinel 0 when shares <= 0). -/
def cellPrice (d : FinancialData) (P : List ForecastRow) (wacc g : ℚ) : ℚ :=
  let ufcfs := P.map (fun p => p.ufcf)
  if ufcfs = [] then 0
  else
    let pv_ufcf_sum := pvSum wacc 0 ufcfs
    if wacc ≤ g then 0
    else
      let final_ufcf := lastD ufcfs
      let tv := final_ufcf * (1 + g) / (wacc - g)
      let pv_tv := tv / (1 + wacc) ^ 5
      let current_ev := pv_ufcf_sum + pv_tv
      let ev_12m := current_ev * (1 + wacc) - ufcfs.headD 0
      let net_debt := lastD d.total_debt - lastD d.cash_and_equivalents
      let equity_val := ev_12m - net_debt
      if d.shares_outstanding ≤ 0 then 0
      else equity_val / d.shares_outstanding

/-- Projection list actually used by compute_intrinsic_value: the cached one
if present, otherwise the lazily computed forecast. -/
def effProj (m : DCFModel) : List ForecastRow :=
  if m.projections = [] then forecastRows m.data m.assumptions else m.projections

/-- Embedding of compute_intrinsic_value: lazily forecasts when no
projections are cached, then runs the pure valuation bridge. -/
def compute_intrinsic_value (m : DCFModel) (wacc g : ℚ) : ℚ × DCFModel :=
  (cellPrice m.data (effProj m) wacc g, { m with projections := effProj m })

/-- Python round(x, 2) modelled over the rationals: round x*100 to the
nearest integer, divide back by 100 (tie-breaking differences of binary
floats are immaterial to every claim below). -/
def round2 (x : ℚ) : ℚ := ((round (x * 100) : ℤ) : ℚ) / 100

/-- Headline price computed by calculate_intrinsic_value as a pure function
of snapshot and assumptions: the local wacc variable is exactly the value
returned by calculate_wacc; unlike compute_intrinsic_value, on the
wacc <= g path this method sets tv = 0 and keeps going, and the final price
is rounded to 2 decimals. -/
def headlinePrice (d : FinancialData) (a : DCFAssumptions) : ℚ :=
  let wacc := waccReturn d
  let ufcfs := (forecastRows d a).map (fun p => p.ufcf)
  if ufcfs = [] then 0
  else
    let pv_ufcf_sum := pvSum wacc 0 ufcfs
    let final_ufcf := lastD ufcfs
    let g := a.terminal_growth_rate
    let tv := if wacc > g then final_ufcf * (1 + g) / (wacc - g) else 0
    let pv_tv := tv / (1 + wacc) ^ 5
    let current_ev := pv_ufcf_sum + pv_tv
    let ev_12m := current_ev * (1 + wacc) - ufcfs.headD 0
    let net_debt := lastD d.total_debt - lastD d.cash_and_equivalents
    let equity_value_12m := ev_12m - net_debt
    if d.shares_outstanding ≤ 0 then 0
    else round2 (equity_value_12m / d.shares_outstanding)

/-- Embedding of calculate_intrinsic_value: runs calculate_wacc (storing the
blended rate unless the fallback path was taken), re-runs the forecast
(overwriting self.projections), and returns the rounded headline price. -/
def calculate_intrinsic_value (m : DCFModel) : ℚ × DCFModel :=
  (headlinePrice m.data m.assumptions,
   { (calculate_wacc m).2 with projections := forecastRows m.data m.assumptions })

/-- Inner loop of generate_sensitivity_table: one row of prices for a fixed
WACC step, threading the engine state through each cell. -/
def sensRow (w : ℚ) : DCFModel → List ℚ → List ℚ × DCFModel
  | m, [] => ([], m)
  | m, g :: gs =>
    let pm := compute_intrinsic_value m w g
    let rest := sensRow w pm.2 gs
    (pm.1 :: rest.1, rest.2)

/-- Outer loop of generate_sensitivity_table: one (wacc, prices) pair per
WACC step. -/
def sensRows : DCFModel → List ℚ → List ℚ → List (ℚ × List ℚ) × DCFModel
  | m, [], _ => ([], m)
  | m, w :: ws, gs =>
    let r := sensRow w m gs
    let rest := sensRows r.2 ws gs
    ((w, r.1) :: rest.1, rest.2)

/-- Embedding of generate_sensitivity_table: 5 WACC steps around the STORED
base rate self.wacc, 5 growth steps around the base terminal growth rate;
returns (g_steps, matrix) where each matrix row is (wacc step, prices). -/
def generate_sensitivity_table (m : DCFModel) :
    (List ℚ × List (ℚ × List ℚ)) × DCFModel :=
  let base_wacc := m.wacc
  let base_g := m.assumptions.terminal_growth_rate
  let wacc_steps := [base_wacc - 1/100, base_wacc - 1/200, base_wacc,
    base_wacc + 1/200, base_wacc + 1/100]
  let g_steps := [base_g - 2/100, base_g - 1/100, base_g,
    base_g + 1/100, base_g + 2/100]
  let r := sensRows m wacc_steps g_steps
  ((g_steps, r.1), r.2)

/-- Modelled from the spec: sections 4.4 and 9 require the terminal-value
discount exponent to derive from the forecast horizon N (the number of
forecast rows), not from a literal constant; this is cellPrice with
(1 + wacc) ^ 5 replaced by (1 + wacc) ^ N.  It exists only to be compared
against the source-faithful cellPrice. -/
def cellPriceSpecN (d : FinancialData) (P : List ForecastRow) (wacc g : ℚ) : ℚ :=
  let ufcfs := P.map (fun p => p.ufcf)
  if ufcfs = [] then 0
  else
    let pv_ufcf_sum := pvSum wacc 0 ufcfs
    if wacc ≤ g then 0
    else
      let final_ufcf := lastD ufcfs
      let tv := final_ufcf * (1 + g) / (wacc - g)
      let pv_tv := tv / (1 + wacc) ^ ufcfs.length
      let current_ev := pv_ufcf_sum + pv_tv
      let ev_12m := current_ev * (1 + wacc) - ufcfs.headD 0
      let net_debt := lastD d.total_debt - lastD d.cash_and_equivalents
      let equity_val := ev_12m - net_debt
      if d.shares_outstanding ≤ 0 then 0
      else equity_val / d.shares_outstanding

/-- Concrete well-formed snapshot used by witnesses: flat 100-revenue history,
20% EBIT margin, 5% D&A, capex -6 (6% after abs), zero NWC each year, no debt
and no preferred equity, market cap 5000, one share outstanding, beta 1,
risk-free 4%, market return 10% (so the blended WACC is the CAPM 10%). -/
def dataW : FinancialData where
  years := ["2021", "2022", "2023"]
  revenue := [100, 100, 100]
  ebit := [20, 20, 20]
  ebitda := [25, 25, 25]
  net_income := [15, 15, 15]
  effective_tax_rate := [21/100, 21/100, 21/100]
  interest_expense := [0, 0, 0]
  current_assets := [50, 50, 50]
  current_liabilities := [30, 30, 30]
  cash_and_equivalents := [20, 20, 20]
  short_term_debt := [0, 0, 0]
  long_term_debt := [0, 0, 0]
  total_debt := [0, 0, 0]
  total_assets := [200, 200, 200]
  total_liabilities := [80, 80, 80]
  property_plant_equipment_net := [40, 40, 40]
  preferred_equity := [0, 0, 0]
  d_and_a := [5, 5, 5]
  capex := [-6, -6, -6]
  preferred_dividends := [0, 0, 0]
  shares_outstanding := 1
  beta := 1
  stock_price := 50
  market_cap := 5000
  risk_free_rate := 1/25
  market_return_rate := 1/10

/-- Two flat forward years and a 2% terminal growth rate. -/
def aW : DCFAssumptions := ⟨[0, 0], 1/50, 5⟩

/-- Freshly constructed engine on the witness snapshot. -/
def mFresh : DCFModel := ⟨dataW, aW, 0, []⟩

/-- Engine whose base WACC (10%) is below the chosen terminal growth rate
(50%): exercises the wacc <= g disagreement between the two valuation paths. -/
def m3 : DCFModel := ⟨dataW, ⟨[0], 1/2, 5⟩, 0, []⟩

/-- Engine with a 2-year forecast horizon: exercises the hardcoded
terminal-value discount exponent. -/
def m6 : DCFModel := ⟨dataW, ⟨[0, 0], 1/50, 5⟩, 0, []⟩

/-- Degenerate snapshot with zero market cap, debt and preferred equity
(total capitalization 0), one share outstanding. -/
def data0 : FinancialData where
  years := ["2021", "2022", "2023"]
  revenue := [100, 100, 100]
  ebit := [10, 10, 10]
  ebitda := [10, 10, 10]
  net_income := [5, 5, 5]
  effective_tax_rate := [0, 0, 0]
  interest_expense := [0, 0, 0]
  current_assets := [0, 0, 0]
  current_liabilities := [0, 0, 0]
  cash_and_equivalents := [0, 0, 0]
  short_term_debt := [0, 0, 0]
  long_term_debt := [0, 0, 0]
  total_debt := [0, 0, 0]
  total_assets := [0, 0, 0]
  total_liabilities := [0, 0, 0]
  property_plant_equipment_net := [0, 0, 0]
  preferred_equity := [0, 0, 0]
  d_and_a := [0, 0, 0]
  capex := [0, 0, 0]
  preferred_dividends := [0, 0, 0]
  shares_outstanding := 1
  beta := 1
  stock_price := 10
  market_cap := 0
  risk_free_rate := 1/25
  market_return_rate := 1/10

/-- Fresh engine over the zero-capitalization snapshot. -/
def m0 : DCFModel := ⟨data0, aW, 0, []⟩

/-- Cached forecast whose unlevered free cash flows are 0 then -100:
a negative-cash-flow stream on which discounting harder helps. -/
def projNeg : List ForecastRow :=
  [⟨1, 0, 0, 0, 0, 0, 0, 0, 0⟩, ⟨2, 0, 0, 0, 0, 0, 0, 0, -100⟩]

/-- Engine carrying the negative cached forecast (terminal growth 0). -/
def mNeg : DCFModel := ⟨data0, ⟨[], 0, 5⟩, 0, projNeg⟩

/-- Cached forecast with positive unlevered free cash flows 10 and 10. -/
def projW : List ForecastRow :=
  [⟨1, 100, 20, 4, 5, 6, 0, 0, 10⟩, ⟨2, 100, 20, 4, 5, 6, 0, 0, 10⟩]

/-- Engine carrying the positive cached forecast. -/
def mW : DCFModel := ⟨dataW, ⟨[], 1/50, 5⟩, 1/10, projW⟩

/-- Snapshot whose OLDEST historical year has zero revenue (the other two
years are ordinary), with zero NWC rows so the NWC ratio divides 0 by 0. -/
def snapC1 : FinancialData where
  years := ["2021", "2022", "2023"]
  revenue := [0, 110, 121]
  ebit := [20, 22, 121/5]
  ebitda := [25, 27, 30]
  net_income := [15, 16, 17]
  effective_tax_rate := [21/100, 21/100, 21/100]
  interest_expense := [0, 0, 0]
  current_assets := [0, 0, 0]
  current_liabilities := [0, 0, 0]
  cash_and_equivalents := [0, 0, 0]
  short_term_debt := [0, 0, 0]
  long_term_debt := [0, 0, 0]
  total_debt := [0, 0, 0]
  total_assets := [200, 200, 200]
  total_liabilities := [80, 80, 80]
  property_plant_equipment_net := [40, 40, 40]
  preferred_equity := [0, 0, 0]
  d_and_a := [5, 5, 5]
  capex := [-6, -6, -6]
  preferred_dividends := [0, 0, 0]
  shares_outstanding := 100
  beta := 1
  stock_price := 50
  market_cap := 5000
  risk_free_rate := 1/25
  market_return_rate := 1/10

/-- Whenever wacc <= g, the pure valuation bridge returns the sentinel 0
(this also covers the empty-forecast early return, which is 0 as well). -/
lemma cellPrice_of_le (d : FinancialData) (P : List ForecastRow) {w g : ℚ}
    (h : w ≤ g) : cellPrice d P w g = 0 := by
  simp [cellPrice, h]

/-- Value returned by calculate_wacc, as a pure function of the snapshot. -/
lemma calculate_wacc_fst (m : DCFModel) : (calculate_wacc m).1 = waccReturn m.data := by
  unfold calculate_wacc waccReturn
  split <;> rfl

/-- calculate_wacc never changes the snapshot. -/
lemma calculate_wacc_snd_data (m : DCFModel) : (calculate_wacc m).2.data = m.data := by
  unfold calculate_wacc
  split <;> rfl

/-- calculate_wacc never changes the assumptions. -/
lemma calculate_wacc_snd_assumptions (m : DCFModel) :
    (calculate_wacc m).2.assumptions = m.assumptions := by
  unfold calculate_wacc
  split <;> rfl

/-- calculate_wacc never changes the cached projections. -/
lemma calculate_wacc_snd_projections (m : DCFModel) :
    (calculate_wacc m).2.projections = m.projections := by
  unfold calculate_wacc
  split <;> rfl

/-- Stored base-case rate after calculate_wacc: unchanged on the fallback
path, the blended WACC otherwise. -/
lemma calculate_wacc_snd_wacc (m : DCFModel) :
    (calculate_wacc m).2.wacc =
      if totalValueOf m.data = 0 then m.wacc else waccBlend m.data := by
  unfold calculate_wacc
  split <;> simp_all

/-- Price returned by calculate_intrinsic_value, as a pure function of the
snapshot and the assumptions. -/
lemma calculate_intrinsic_value_fst (m : DCFModel) :
    (calculate_intrinsic_value m).1 = headlinePrice m.data m.assumptions := rfl

/-- calculate_intrinsic_value never changes the snapshot. -/
lemma calculate_intrinsic_value_snd_data (m : DCFModel) :
    (calculate_intrinsic_value m).2.data = m.data :=
  calculate_wacc_snd_data m

/-- calculate_intrinsic_value never changes the assumptions. -/
lemma calculate_intrinsic_value_snd_assumptions (m : DCFModel) :
    (calculate_intrinsic_value m).2.assumptions = m.assumptions :=
  calculate_wacc_snd_assumptions m

/-- calculate_intrinsic_value leaves the freshly recomputed forecast cached. -/
lemma calculate_intrinsic_value_snd_projections (m : DCFModel) :
    (calculate_intrinsic_value m).2.projections = forecastRows m.data m.assumptions := rfl

/-- Stored base rate after a full calculate_intrinsic_value run. -/
lemma calculate_intrinsic_value_snd_wacc (m : DCFModel) :
    (calculate_intrinsic_value m).2.wacc =
      if totalValueOf m.data = 0 then m.wacc else waccBlend m.data :=
  calculate_wacc_snd_wacc m

/-- The effective projection list is stable under caching it. -/
lemma effProj_stable (m : DCFModel) :
    effProj { m with projections := effProj m } = effProj m := by
  by_cases h : m.projections = []
  · by_cases h2 : forecastRows m.data m.assumptions = [] <;>
      simp [effProj, h, h2]
  · simp [effProj, h]

/-- Prices produced by one sensitivity row: the pure bridge applied to the
effective projections, one cell per growth step. -/
lemma sensRow_fst (w : ℚ) (gs : List ℚ) : ∀ m : DCFModel,
    (sensRow w m gs).1 = gs.map (fun g => cellPrice m.data (effProj m) w g) := by
  induction gs with
  | nil => intro m; rfl
  | cons g gs ih =>
    intro m
    show (compute_intrinsic_value m w g).1 ::
        (sensRow w (compute_intrinsic_value m w g).2 gs).1 = _
    rw [ih]
    simp only [compute_intrinsic_value, List.map]
    rw [effProj_stable]

/-- State after one sensitivity row: untouched for an empty growth list,
otherwise the effective projections are cached. -/
lemma sensRow_snd (w : ℚ) (gs : List ℚ) : ∀ m : DCFModel,
    (sensRow w m gs).2 = if gs = [] then m else { m with projections := effProj m } := by
  induction gs with
  | nil => intro m; rfl
  | cons g gs ih =>
    intro m
    show (sensRow w (compute_intrinsic_value m w g).2 gs).2 = _
    rw [ih]
    by_cases h : gs = []
    · simp [h, compute_intrinsic_value]
    · simp [h, compute_intrinsic_value, effProj_stable]

/-- Matrix produced by the sensitivity loops: rows are (wacc step, prices),
every cell is the pure bridge on the effective projections. -/
lemma sensRows_fst (gs : List ℚ) (ws : List ℚ) : ∀ m : DCFModel,
    (sensRows m ws gs).1 =
      ws.map (fun w => (w, gs.map (fun g => cellPrice m.data (effProj m) w g))) := by
  induction ws with
  | nil => intro m; rfl
  | cons w ws ih =>
    intro m
    show (w, (sensRow w m gs).1) :: (sensRows (sensRow w m gs).2 ws gs).1 = _
    rw [ih, sensRow_fst, sensRow_snd]
    by_cases h : gs = []
    · simp [h]
    · simp only [h, if_neg, ite_false, reduceCtorEq, List.map]
      rw [effProj_stable]

/-- State after the full sensitivity sweep (both step lists nonempty):
the effective projections are cached, nothing else changes. -/
lemma sensRows_snd (gs : List ℚ) (hgs : gs ≠ []) (ws : List ℚ) (hws : ws ≠ []) :
    ∀ m : DCFModel,
      (sensRows m ws gs).2 = { m with projections := effProj m } := by
  induction ws with
  | nil => exact absurd rfl hws
  | cons w ws ih =>
    intro m
    show (sensRows (sensRow w m gs).2 ws gs).2 = _
    rw [sensRow_snd, if_neg hgs]
    by_cases h : ws = []
    · subst h
      show ({ m with projections := effProj m } : DCFModel) = _
      rfl
    · rw [ih h]
      show ({ m with projections := effProj { m with projections := effProj m } } : DCFModel) = _
      rw [effProj_stable]

/-- Growth steps returned by generate_sensitivity_table. -/
lemma generate_sensitivity_table_gsteps (m : DCFModel) :
    (generate_sensitivity_table m).1.1 =
      [m.assumptions.terminal_growth_rate - 2/100,
       m.assumptions.terminal_growth_rate - 1/100,
       m.assumptions.terminal_growth_rate,
       m.assumptions.terminal_growth_rate + 1/100,
       m.assumptions.terminal_growth_rate + 2/100] := rfl

/-- Matrix returned by generate_sensitivity_table: WACC steps around the
stored base rate, prices from the pure bridge over the effective projections. -/
lemma generate_sensitivity_table_matrix (m : DCFModel) :
    (generate_sensitivity_table m).1.2 =
      [m.wacc - 1/100, m.wacc - 1/200, m.wacc, m.wacc + 1/200, m.wacc + 1/100].map
        (fun w => (w,
          [m.assumptions.terminal_growth_rate - 2/100,
           m.assumptions.terminal_growth_rate - 1/100,
           m.assumptions.terminal_growth_rate,
           m.assumptions.terminal_growth_rate + 1/100,
           m.assumptions.terminal_growth_rate + 2/100].map
            (fun g => cellPrice m.data (effProj m) w g))) := by
  show (sensRows m _ _).1 = _
  rw [sensRows_fst]

/-- After generate_sensitivity_table the effective projections are cached:
this is the lazy forecast trigger. -/
lemma generate_sensitivity_table_snd_projections (m : DCFModel) :
    (generate_sensitivity_table m).2.projections = effProj m := by
  show (sensRows m _ _).2.projections = _
  rw [sensRows_snd _ (by simp) _ (by simp)]

/-- Multiplying a shifted stage-1 PV sum by (1 + w) unshifts it by one year. -/
lemma pvSum_shift (w : ℚ) (hw : 1 + w ≠ 0) : ∀ (l : List ℚ) (k : ℕ),
    (1 + w) * pvSum w (k + 1) l = pvSum w k l := by
  intro l
  induction l with
  | nil => intro k; simp [pvSum]
  | cons f fs ih =>
    intro k
    simp only [pvSum]
    rw [mul_add, ih (k + 1)]
    congr 1
    rw [pow_succ, ← div_div, mul_comm, div_mul_cancel₀ _ hw]

/-- Discounting a nonnegative flow list at a higher rate never increases the
stage-1 PV sum. -/
lemma pvSum_anti (w1 w2 : ℚ) (h1 : (0:ℚ) < 1 + w1) (h12 : w1 < w2) :
    ∀ (l : List ℚ), (∀ x ∈ l, 0 ≤ x) → ∀ k, pvSum w2 k l ≤ pvSum w1 k l := by
  intro l
  induction l with
  | nil => intro _ k; simp [pvSum]
  | cons f fs ih =>
    intro hnn k
    simp only [pvSum]
    have hf : 0 ≤ f := hnn f (List.mem_cons_self f fs)
    have hp1 : (0:ℚ) < (1 + w1) ^ (k + 1) := pow_pos h1 _
    have hple : (1 + w1) ^ (k + 1) ≤ (1 + w2) ^ (k + 1) :=
      pow_le_pow_left₀ (le_of_lt h1) (by linarith) _
    exact add_le_add (div_le_div_of_nonneg_left hf hp1 hple)
      (ih (fun x hx => hnn x (List.mem_cons_of_mem f hx)) (k + 1))

/-- Closed form of the pure bridge on the valid side of the Gordon boundary
with positive shares: the year-1 flow cancels against the roll-forward, and
the terminal term is discounted only 4 years after the multiplication. -/
lemma cellPrice_closed_form (d : FinancialData) (P : List ForecastRow) (w g : ℚ)
    (hg : g < w) (h1w : (0:ℚ) < 1 + w) (hs : 0 < d.shares_outstanding)
    (u0 : ℚ) (t : List ℚ) (hut : P.map (fun p => p.ufcf) = u0 :: t) :
    cellPrice d P w g =
      (pvSum w 0 t + lastD (u0 :: t) * (1 + g) / ((w - g) * (1 + w) ^ 4)
        - (lastD d.total_debt - lastD d.cash_and_equivalents))
        / d.shares_outstanding := by
  have h1w' : (1:ℚ) + w ≠ 0 := ne_of_gt h1w
  have hwg : w - g ≠ 0 := ne_of_gt (sub_pos.mpr hg)
  simp only [cellPrice, hut]
  rw [if_neg (List.cons_ne_nil u0 t), if_neg (not_le.mpr hg), if_neg (not_le.mpr hs)]
  have hps : pvSum w 0 (u0 :: t) = u0 / (1 + w) ^ 1 + pvSum w 1 t := rfl
  have hshift : (1 + w) * pvSum w 1 t = pvSum w 0 t := pvSum_shift w h1w' t 0
  have expand :
      (u0 / (1 + w) ^ 1 + pvSum w 1 t
          + lastD (u0 :: t) * (1 + g) / (w - g) / (1 + w) ^ 5) * (1 + w)
        = u0 + pvSum w 0 t
          + lastD (u0 :: t) * (1 + g) / ((w - g) * (1 + w) ^ 4) := by
    rw [← hshift]
    field_simp
    ring
  rw [hps, expand]
  rw [List.headD_cons]
  ring

/-- Rounding the sentinel still gives the sentinel. -/
lemma round2_zero : round2 0 = 0 := by
  norm_num [round2]

/-- C1: on a snapshot whose oldest historical year has zero revenue, the
margin estimator does NOT signal any DivisionUndefined condition: the numpy
elementwise divisions silently yield non-finite ratios, so the averaged
EBIT, D&A and CapEx margins come out as +inf and the NWC margin as nan
(the dead ZeroDivisionError handler never fires), contradicting the claim
that NaN/infinite ratios are never produced. -/
theorem C1_zero_revenue_margins_not_signalled :
    snapC1.revenue = [0, 110, 121] ∧
    npCalculateHistoricalMargins snapC1 =
      (XVal.pinf, XVal.pinf, XVal.nan, XVal.pinf, XVal.fin 0) := by
  constructor
  · rfl
  · norm_num [npCalculateHistoricalMargins, npMean, npSum, npDivQ, npDivNat, npAdd,
      lastN, lastD, FinancialData.nwc, List.range_succ, snapC1]

/-- C2: with a cached forecast, whenever wacc is at most the terminal growth
rate the pure bridge compute_intrinsic_value returns exactly the finite
sentinel 0 (the guard fires before any terminal-value division can happen,
and the preceding stage-1 loop raises no exception). -/
theorem C2_sentinel_on_invalid_gordon (m : DCFModel) (w g : ℚ)
    (_hproj : m.projections ≠ []) (h : w ≤ g) :
    (compute_intrinsic_value m w g).1 = 0 := by
  show cellPrice m.data (effProj m) w g = 0
  exact cellPrice_of_le _ _ h

/-- Witness for C2 at the boundary wacc = g on a concrete cached forecast. -/
theorem C2_sentinel_on_invalid_gordon_witness :
    (compute_intrinsic_value mW (1/50) (1/50)).1 = 0 :=
  C2_sentinel_on_invalid_gordon mW (1/50) (1/50)
    (by simp [mW, projW]) (le_refl _)

/-- C5 counterexample: on a zero-total-capitalization snapshot,
calculate_wacc returns the fallback 0.10 but does NOT store it - the early
return skips the self.wacc assignment, so the stored base-case rate stays
at its constructor value 0.0 and differs from the returned value. -/
theorem C5_counterexample_fallback_not_stored :
    (calculate_wacc m0).1 = 1/10 ∧
    (calculate_wacc m0).2.wacc ≠ (calculate_wacc m0).1 := by
  constructor
  · norm_num [calculate_wacc, totalValueOf, lastD, data0, m0]
  · norm_num [calculate_wacc, totalValueOf, lastD, data0, m0]

/-- C5 amended: calculate_wacc stores the value it returns exactly when the
total capitalization is nonzero; on the zero-capitalization path it returns
the fallback 0.10 and leaves the engine state (hence the base-case rate)
completely unchanged. -/
theorem C5_wacc_storage (m : DCFModel) :
    (totalValueOf m.data ≠ 0 → (calculate_wacc m).2.wacc = (calculate_wacc m).1) ∧
    (totalValueOf m.data = 0 → (calculate_wacc m).1 = 1/10 ∧ (calculate_wacc m).2 = m) := by
  constructor
  · intro h
    rw [calculate_wacc_snd_wacc, calculate_wacc_fst, if_neg h]
    unfold waccReturn
    rw [if_neg h]
  · intro h
    unfold calculate_wacc
    rw [if_pos h]
    exact ⟨rfl, rfl⟩

/-- Witness for C5 amended on a snapshot with nonzero capitalization. -/
theorem C5_wacc_storage_witness :
    totalValueOf mFresh.data ≠ 0 ∧
    (calculate_wacc mFresh).2.wacc = (calculate_wacc mFresh).1 :=
  ⟨by norm_num [totalValueOf, lastD, mFresh, dataW],
   (C5_wacc_storage mFresh).1 (by norm_num [totalValueOf, lastD, mFresh, dataW])⟩

/-- C8: whenever the total capitalization is nonzero, the three
capital-structure weights computed by calculate_wacc sum to exactly 1 in
exact rational arithmetic. -/
theorem C8_weights_sum_to_one (d : FinancialData) (h : totalValueOf d ≠ 0) :
    (capitalWeights d).1 + (capitalWeights d).2.1 + (capitalWeights d).2.2 = 1 := by
  unfold capitalWeights
  rw [div_add_div_same, div_add_div_same]
  rw [show d.market_cap + lastD d.total_debt + lastD d.preferred_equity
      = totalValueOf d from rfl]
  exact div_self h

/-- Witness for C8 on the concrete snapshot with capitalization 5000. -/
theorem C8_weights_sum_to_one_witness :
    totalValueOf dataW ≠ 0 ∧
    (capitalWeights dataW).1 + (capitalWeights dataW).2.1 + (capitalWeights dataW).2.2 = 1 :=
  ⟨by norm_num [totalValueOf, lastD, dataW],
   C8_weights_sum_to_one dataW (by norm_num [totalValueOf, lastD, dataW])⟩

/-- C9: running calculate_intrinsic_value twice on the same engine instance
returns the same target price both times - the recomputation of WACC and of
the forecast on the second run reads only the (unchanged) snapshot and
assumptions, so the returned value cannot drift. -/
theorem C9_idempotent_headline_price (m : DCFModel) (_hwf : WellFormed m.data) :
    (calculate_intrinsic_value (calculate_intrinsic_value m).2).1 =
      (calculate_intrinsic_value m).1 := by
  rw [calculate_intrinsic_value_fst, calculate_intrinsic_value_fst,
    calculate_intrinsic_value_snd_data, calculate_intrinsic_value_snd_assumptions]

/-- Witness for C9 on a concrete well-formed snapshot. -/
theorem C9_idempotent_headline_price_witness :
    WellFormed mFresh.data ∧
    (calculate_intrinsic_value (calculate_intrinsic_value mFresh).2).1 =
      (calculate_intrinsic_value mFresh).1 :=
  ⟨by decide, C9_idempotent_headline_price mFresh (by decide)⟩

/-- On the valid side of the Gordon boundary the pure bridge (called with
the same WACC and terminal growth as the base case, on the freshly cached
forecast) computes exactly the headline quantity before rounding. -/
lemma round2_cellPrice_eq_headlinePrice (d : FinancialData) (a : DCFAssumptions)
    (hgt : a.terminal_growth_rate < waccReturn d) :
    round2 (cellPrice d (forecastRows d a) (waccReturn d) a.terminal_growth_rate)
      = headlinePrice d a := by
  simp only [cellPrice, headlinePrice]
  by_cases hu : (forecastRows d a).map (fun p => p.ufcf) = []
  · rw [if_pos hu, if_pos hu, round2_zero]
  · rw [if_neg hu, if_neg hu, if_neg (not_le.mpr hgt), if_pos hgt]
    by_cases hs : d.shares_outstanding ≤ 0
    · rw [if_pos hs, if_pos hs, round2_zero]
    · rw [if_neg hs, if_neg hs]

/-- C3 amended: provided the snapshot's total capitalization is nonzero (so
the base rate the sensitivity generator reads back from the engine is the
one calculate_wacc actually returned) and the base WACC exceeds the base
terminal growth rate, the sensitivity matrix center cell [2][2] computed
after a full valuation run equals the headline target price up to the
2-decimal rounding applied to the headline. -/
theorem C3_center_cell_matches_headline (m : DCFModel) (_hwf : WellFormed m.data)
    (htv : totalValueOf m.data ≠ 0)
    (hgt : m.assumptions.terminal_growth_rate < waccReturn m.data) :
    round2 ((((generate_sensitivity_table (calculate_intrinsic_value m).2).1.2.getD 2
        ((0:ℚ), ([]:List ℚ))).2).getD 2 0)
      = (calculate_intrinsic_value m).1 := by
  have hd : (calculate_intrinsic_value m).2.data = m.data :=
    calculate_intrinsic_value_snd_data m
  have ha : (calculate_intrinsic_value m).2.assumptions = m.assumptions :=
    calculate_intrinsic_value_snd_assumptions m
  have hw : (calculate_intrinsic_value m).2.wacc = waccReturn m.data := by
    rw [calculate_intrinsic_value_snd_wacc, if_neg htv]
    unfold waccReturn
    rw [if_neg htv]
  have heff : effProj (calculate_intrinsic_value m).2 = forecastRows m.data m.assumptions := by
    unfold effProj
    rw [calculate_intrinsic_value_snd_projections, hd, ha]
    exact ite_self _
  rw [generate_sensitivity_table_matrix]
  simp only [List.map_cons, List.map_nil, List.getD, List.get?, Option.getD]
  rw [hd, ha, hw, heff, calculate_intrinsic_value_fst]
  exact round2_cellPrice_eq_headlinePrice m.data m.assumptions hgt

/-- C3 counterexample: on the engine m3 (base WACC 0.10, terminal growth
0.50) the logged path keeps going with tv = 0 and returns 20, while the
sensitivity center cell takes the wacc <= g sentinel 0, so the two paths
disagree and the claim as stated is false. -/
theorem C3_counterexample_center_cell :
    round2 ((((generate_sensitivity_table (calculate_intrinsic_value m3).2).1.2.getD 2
        ((0:ℚ), ([]:List ℚ))).2).getD 2 0)
      ≠ (calculate_intrinsic_value m3).1 := by
  norm_num [generate_sensitivity_table, sensRows, sensRow, compute_intrinsic_value, effProj,
    cellPrice, pvSum, calculate_intrinsic_value, calculate_wacc, headlinePrice, waccReturn,
    waccBlend, totalValueOf, capitalWeights, taxRate, forecastRows, forecastStep,
    calculate_historical_margins, meanQ, lastN, lastD, FinancialData.nwc, List.range_succ,
    round2, round_eq, m3, dataW]

/-- Witness for C3 amended on the concrete well-formed engine mFresh. -/
theorem C3_center_cell_matches_headline_witness :
    mFresh.assumptions.terminal_growth_rate < waccReturn mFresh.data ∧
    round2 ((((generate_sensitivity_table (calculate_intrinsic_value mFresh).2).1.2.getD 2
        ((0:ℚ), ([]:List ℚ))).2).getD 2 0)
      = (calculate_intrinsic_value mFresh).1 :=
  ⟨by norm_num [waccReturn, waccBlend, totalValueOf, capitalWeights, taxRate, lastD,
      mFresh, dataW, aW],
   C3_center_cell_matches_headline mFresh (by decide)
     (by norm_num [totalValueOf, lastD, mFresh, dataW])
     (by norm_num [waccReturn, waccBlend, totalValueOf, capitalWeights, taxRate, lastD,
       mFresh, dataW, aW])⟩

/-- The forecaster produces exactly one row per growth rate. -/
lemma forecastStep_length (em dm nm cm tx : ℚ) (gs : List ℚ) :
    ∀ (k : ℕ) (r0 n0 : ℚ),
      (forecastStep em dm nm cm tx k r0 n0 gs).length = gs.length := by
  induction gs with
  | nil => intro k r0 n0; rfl
  | cons g gs ih =>
    intro k r0 n0
    simp only [forecastStep, List.length_cons, ih]

/-- Row-by-row recurrence of the forecaster: each row's revenue compounds the
previous row's (base: the seed revenue), every operating line is that row's
revenue times its margin, the NWC change is differenced against the previous
row's NWC level (base: the seed anchor), and UFCF is
NOPAT + D&A - CapEx - change in NWC. -/
lemma forecastStep_spec (em dm nm cm tx : ℚ) (gs : List ℚ) :
    ∀ (k : ℕ) (r0 n0 : ℚ) (rows : List ForecastRow),
      rows = forecastStep em dm nm cm tx k r0 n0 gs →
      ∀ i, i < gs.length →
        ((rows.getD i row0).revenue =
          (if i = 0 then r0 else (rows.getD (i - 1) row0).revenue)
            * (1 + gs.getD i 0)) ∧
        ((rows.getD i row0).ebit = (rows.getD i row0).revenue * em) ∧
        ((rows.getD i row0).taxes = (rows.getD i row0).ebit * tx) ∧
        ((rows.getD i row0).da = (rows.getD i row0).revenue * dm) ∧
        ((rows.getD i row0).capex = (rows.getD i row0).revenue * cm) ∧
        ((rows.getD i row0).nwc = (rows.getD i row0).revenue * nm) ∧
        ((rows.getD i row0).change_nwc =
          (rows.getD i row0).nwc - (if i = 0 then n0 else (rows.getD (i - 1) row0).nwc)) ∧
        ((rows.getD i row0).ufcf =
          ((rows.getD i row0).ebit - (rows.getD i row0).taxes) + (rows.getD i row0).da
            - (rows.getD i row0).capex - (rows.getD i row0).change_nwc) := by
  induction gs with
  | nil =>
    intro k r0 n0 rows hrows i hi
    exact absurd hi (by simp)
  | cons g gs ih =>
    intro k r0 n0 rows hrows i hi
    subst hrows
    cases i with
    | zero =>
      simp [forecastStep]
    | succ j =>
      have hj : j < gs.length := Nat.lt_of_succ_lt_succ hi
      have IH := ih (k + 1) (r0 * (1 + g)) (r0 * (1 + g) * nm) _ rfl j hj
      cases j with
      | zero => simpa [forecastStep] using IH
      | succ j' => simpa [forecastStep] using IH

/-- C4: for a well-formed snapshot with nonzero historical revenues,
forecast_cash_flows returns one row per growth rate, in order, and the rows
satisfy the stated recurrence: revenue compounds from the snapshot's latest
actual revenue, EBIT / D&A / CapEx / NWC level are revenue times the average
margins, taxes are EBIT times the tax rate, the NWC change differences
consecutive NWC levels from the latest historical anchor, and
UFCF = (EBIT - taxes) + D&A - CapEx - change in NWC. -/
theorem C4_forecast_recurrence (m : DCFModel) (_hwf : WellFormed m.data)
    (_hrev : ∀ r ∈ m.data.revenue, r ≠ 0) :
    (forecast_cash_flows m).1.length = m.assumptions.revenue_growth_rates.length ∧
    ∀ i, i < m.assumptions.revenue_growth_rates.length →
      (((forecast_cash_flows m).1.getD i row0).revenue =
        (if i = 0 then lastD m.data.revenue
         else ((forecast_cash_flows m).1.getD (i - 1) row0).revenue)
          * (1 + m.assumptions.revenue_growth_rates.getD i 0)) ∧
      (((forecast_cash_flows m).1.getD i row0).ebit =
        ((forecast_cash_flows m).1.getD i row0).revenue
          * (calculate_historical_margins m.data).avg_ebit_m) ∧
      (((forecast_cash_flows m).1.getD i row0).taxes =
        ((forecast_cash_flows m).1.getD i row0).ebit * taxRate m.data) ∧
      (((forecast_cash_flows m).1.getD i row0).da =
        ((forecast_cash_flows m).1.getD i row0).revenue
          * (calculate_historical_margins m.data).avg_da_m) ∧
      (((forecast_cash_flows m).1.getD i row0).capex =
        ((forecast_cash_flows m).1.getD i row0).revenue
          * (calculate_historical_margins m.data).avg_capex_m) ∧
      (((forecast_cash_flows m).1.getD i row0).nwc =
        ((forecast_cash_flows m).1.getD i row0).revenue
          * (calculate_historical_margins m.data).avg_nwc_m) ∧
      (((forecast_cash_flows m).1.getD i row0).change_nwc =
        ((forecast_cash_flows m).1.getD i row0).nwc -
          (if i = 0 then (calculate_historical_margins m.data).last_nwc
           else ((forecast_cash_flows m).1.getD (i - 1) row0).nwc)) ∧
      (((forecast_cash_flows m).1.getD i row0).ufcf =
        (((forecast_cash_flows m).1.getD i row0).ebit
            - ((forecast_cash_flows m).1.getD i row0).taxes)
          + ((forecast_cash_flows m).1.getD i row0).da
          - ((forecast_cash_flows m).1.getD i row0).capex
          - ((forecast_cash_flows m).1.getD i row0).change_nwc) := by
  constructor
  · exact forecastStep_length _ _ _ _ _ _ 0 _ _
  · intro i hi
    exact forecastStep_spec
      (calculate_historical_margins m.data).avg_ebit_m
      (calculate_historical_margins m.data).avg_da_m
      (calculate_historical_margins m.data).avg_nwc_m
      (calculate_historical_margins m.data).avg_capex_m
      (taxRate m.data) m.assumptions.revenue_growth_rates 0
      (lastD m.data.revenue) (calculate_historical_margins m.data).last_nwc
      (forecast_cash_flows m).1 rfl i hi

/-- Witness for C4 on the concrete engine mFresh (nonzero revenues). -/
theorem C4_forecast_recurrence_witness :
    (forecast_cash_flows mFresh).1.length
        = mFresh.assumptions.revenue_growth_rates.length ∧
    ∀ i, i < mFresh.assumptions.revenue_growth_rates.length →
      (((forecast_cash_flows mFresh).1.getD i row0).revenue =
        (if i = 0 then lastD mFresh.data.revenue
         else ((forecast_cash_flows mFresh).1.getD (i - 1) row0).revenue)
          * (1 + mFresh.assumptions.revenue_growth_rates.getD i 0)) ∧
      (((forecast_cash_flows mFresh).1.getD i row0).ebit =
        ((forecast_cash_flows mFresh).1.getD i row0).revenue
          * (calculate_historical_margins mFresh.data).avg_ebit_m) ∧
      (((forecast_cash_flows mFresh).1.getD i row0).taxes =
        ((forecast_cash_flows mFresh).1.getD i row0).ebit * taxRate mFresh.data) ∧
      (((forecast_cash_flows mFresh).1.getD i row0).da =
        ((forecast_cash_flows mFresh).1.getD i row0).revenue
          * (calculate_historical_margins mFresh.data).avg_da_m) ∧
      (((forecast_cash_flows mFresh).1.getD i row0).capex =
        ((forecast_cash_flows mFresh).1.getD i row0).revenue
          * (calculate_historical_margins mFresh.data).avg_capex_m) ∧
      (((forecast_cash_flows mFresh).1.getD i row0).nwc =
        ((forecast_cash_flows mFresh).1.getD i row0).revenue
          * (calculate_historical_margins mFresh.data).avg_nwc_m) ∧
      (((forecast_cash_flows mFresh).1.getD i row0).change_nwc =
        ((forecast_cash_flows mFresh).1.getD i row0).nwc -
          (if i = 0 then (calculate_historical_margins mFresh.data).last_nwc
           else ((forecast_cash_flows mFresh).1.getD (i - 1) row0).nwc)) ∧
      (((forecast_cash_flows mFresh).1.getD i row0).ufcf =
        (((forecast_cash_flows mFresh).1.getD i row0).ebit
            - ((forecast_cash_flows mFresh).1.getD i row0).taxes)
          + ((forecast_cash_flows mFresh).1.getD i row0).da
          - ((forecast_cash_flows mFresh).1.getD i row0).capex
          - ((forecast_cash_flows mFresh).1.getD i row0).change_nwc) :=
  C4_forecast_recurrence mFresh (by decide)
    (by intro r hr; fin_cases hr <;> norm_num)

/-- C6: on a 2-year forecast horizon the source still discounts the terminal
value by the literal (1 + WACC) ^ 5, so the price it computes differs from
the horizon-derived (1 + WACC) ^ N discounting that the spec requires: the
lazily forecast engine m6 (N = 2, WACC 0.10 > g 0.02) is a concrete input
where the two disagree. -/
theorem C6_terminal_discount_uses_literal_five :
    (compute_intrinsic_value m6 (1/10) (1/50)).1 ≠
      cellPriceSpecN m6.data (effProj m6) (1/10) (1/50) := by
  norm_num [compute_intrinsic_value, cellPrice, cellPriceSpecN, effProj, pvSum,
    forecastRows, forecastStep, calculate_historical_margins, meanQ, lastN, lastD,
    taxRate, FinancialData.nwc, List.range_succ, m6, dataW]
  simp
  norm_num

/-- C10: calling generate_sensitivity_table on a freshly constructed engine
(before any WACC computation) does not fail: the WACC steps are exactly the
five offsets around the constructor value 0.0, the forecast is triggered
lazily and cached by the sweep, and every cell whose step WACC is at most
its step growth rate holds the sentinel 0. -/
theorem C10_fresh_engine_sensitivity (d : FinancialData) (a : DCFAssumptions)
    (_hwf : WellFormed d) :
    ((generate_sensitivity_table ⟨d, a, 0, []⟩).1.2.map Prod.fst
        = [-(1/100), -(1/200), 0, 1/200, 1/100]) ∧
    ((generate_sensitivity_table ⟨d, a, 0, []⟩).2.projections = forecastRows d a) ∧
    (∀ i, i < 5 → ∀ j, j < 5 →
      ((generate_sensitivity_table ⟨d, a, 0, []⟩).1.2.getD i ((0:ℚ), ([]:List ℚ))).1
          ≤ (generate_sensitivity_table ⟨d, a, 0, []⟩).1.1.getD j 0 →
      (((generate_sensitivity_table ⟨d, a, 0, []⟩).1.2.getD i ((0:ℚ), ([]:List ℚ))).2).getD j 0
        = 0) := by
  refine ⟨?_, ?_, ?_⟩
  · rw [generate_sensitivity_table_matrix]
    norm_num
  · rw [generate_sensitivity_table_snd_projections]
    simp [effProj]
  · intro i hi j hj
    rw [generate_sensitivity_table_matrix, generate_sensitivity_table_gsteps]
    interval_cases i <;> interval_cases j <;>
      · simp only [List.map_cons, List.map_nil, List.getD, List.get?, Option.getD]
        intro hle
        exact cellPrice_of_le _ _ hle

/-- Witness for C10 on the concrete well-formed snapshot dataW. -/
theorem C10_fresh_engine_sensitivity_witness :
    ((generate_sensitivity_table ⟨dataW, aW, 0, []⟩).1.2.map Prod.fst
        = [-(1/100), -(1/200), 0, 1/200, 1/100]) ∧
    ((generate_sensitivity_table ⟨dataW, aW, 0, []⟩).2.projections = forecastRows dataW aW) ∧
    (∀ i, i < 5 → ∀ j, j < 5 →
      ((generate_sensitivity_table ⟨dataW, aW, 0, []⟩).1.2.getD i ((0:ℚ), ([]:List ℚ))).1
          ≤ (generate_sensitivity_table ⟨dataW, aW, 0, []⟩).1.1.getD j 0 →
      (((generate_sensitivity_table ⟨dataW, aW, 0, []⟩).1.2.getD i
          ((0:ℚ), ([]:List ℚ))).2).getD j 0 = 0) :=
  C10_fresh_engine_sensitivity dataW aW (by decide)

/-- C7 amended: with a nonempty cached forecast whose UFCFs are all
nonnegative and whose final UFCF is positive, terminal growth above -100%,
and positive shares outstanding, the target price is strictly antitone in
WACC on the valid side of the Gordon boundary (g < w1 < w2). -/
theorem C7_price_strict_antitone_in_wacc (m : DCFModel) (w1 w2 g : ℚ)
    (hproj : m.projections ≠ [])
    (hnn : ∀ r ∈ m.projections, 0 ≤ r.ufcf)
    (hlast : 0 < lastD (m.projections.map (fun p => p.ufcf)))
    (hg : (-1:ℚ) < g) (hgw : g < w1) (hww : w1 < w2)
    (hs : 0 < m.data.shares_outstanding) :
    (compute_intrinsic_value m w2 g).1 < (compute_intrinsic_value m w1 g).1 := by
  have heff : effProj m = m.projections := by simp [effProj, hproj]
  show cellPrice m.data (effProj m) w2 g < cellPrice m.data (effProj m) w1 g
  rw [heff]
  have hune : m.projections.map (fun p => p.ufcf) ≠ [] := by simpa using hproj
  obtain ⟨u0, t, hut⟩ := List.exists_cons_of_ne_nil hune
  have h1w1 : (0:ℚ) < 1 + w1 := by linarith
  have h1w2 : (0:ℚ) < 1 + w2 := by linarith
  have hgw2 : g < w2 := lt_trans hgw hww
  rw [cellPrice_closed_form m.data m.projections w2 g hgw2 h1w2 hs u0 t hut,
      cellPrice_closed_form m.data m.projections w1 g hgw h1w1 hs u0 t hut]
  apply (div_lt_div_iff_of_pos_right hs).mpr
  have hSt : pvSum w2 0 t ≤ pvSum w1 0 t := by
    apply pvSum_anti w1 w2 h1w1 hww t ?_ 0
    intro x hx
    have hxu : x ∈ m.projections.map (fun p => p.ufcf) := by
      rw [hut]
      exact List.mem_cons_of_mem u0 hx
    obtain ⟨r, hr, rfl⟩ := List.mem_map.mp hxu
    exact hnn r hr
  have hlast' : 0 < lastD (u0 :: t) := by
    rw [← hut]
    exact hlast
  have hN : 0 < lastD (u0 :: t) * (1 + g) := mul_pos hlast' (by linarith)
  have hd1 : (0:ℚ) < (w1 - g) * (1 + w1) ^ 4 :=
    mul_pos (by linarith) (pow_pos h1w1 4)
  have hdlt : (w1 - g) * (1 + w1) ^ 4 < (w2 - g) * (1 + w2) ^ 4 := by
    have hp : (1 + w1) ^ 4 ≤ (1 + w2) ^ 4 :=
      pow_le_pow_left₀ (le_of_lt h1w1) (by linarith) 4
    exact mul_lt_mul (by linarith) hp (pow_pos h1w1 4) (by linarith)
  have hT : lastD (u0 :: t) * (1 + g) / ((w2 - g) * (1 + w2) ^ 4)
      < lastD (u0 :: t) * (1 + g) / ((w1 - g) * (1 + w1) ^ 4) :=
    div_lt_div_of_pos_left hN hd1 hdlt
  linarith

/-- C7 counterexample: on the cached forecast with UFCFs (0, -100) (shares
1, no net debt, terminal growth 0) raising WACC from 5% to 10% strictly
RAISES the price (discounting a negative stream harder helps), so the
claimed strict decrease fails as stated for an arbitrary cached forecast. -/
theorem C7_counterexample_negative_flows :
    (compute_intrinsic_value mNeg (1/20) 0).1 < (compute_intrinsic_value mNeg (1/10) 0).1 := by
  simp only [compute_intrinsic_value, cellPrice, effProj, pvSum, lastD,
    mNeg, projNeg, data0, List.map_cons, List.map_nil, List.cons_ne_nil, if_false,
    reduceCtorEq, ite_false, List.getLast?_cons_cons, List.getLast?_singleton,
    List.headD_cons, Option.getD_some]
  norm_num

/-- Witness for C7 amended: positive cached flows (10, 10), shares 1,
terminal growth 2%, WACC raised from 8% to 9%. -/
theorem C7_price_strict_antitone_in_wacc_witness :
    (compute_intrinsic_value mW (9/100) (1/50)).1 <
      (compute_intrinsic_value mW (2/25) (1/50)).1 :=
  C7_price_strict_antitone_in_wacc mW (2/25) (9/100) (1/50)
    (by simp [mW, projW])
    (by intro r hr; simp only [mW, projW, List.mem_cons, List.not_mem_nil, or_false] at hr;
        rcases hr with rfl | rfl <;> norm_num)
    (by norm_num [mW, projW, lastD])
    (by norm_num) (by norm_num) (by norm_num)
    (by norm_num [mW, dataW])
